import Mathlib

/-!
Shallow embedding of the SAP GUI automation scripts (`src/sap_gui.py`,
`src/main.py`) and proofs about the connection-establishment and login
state machine described in the design specification.

External effects (the vendor COM automation object, the filesystem, the
process table, time) are modelled as explicit world/oracle parameters:
each call into an external object either returns a value or raises,
exactly as the corresponding Python call site can, and the world
parameter records which happens.  Window-state queries (which window is
active, what text a label holds) are treated as total reads of the
world, matching the spec's abstraction of the UI as a state the state
machine observes.
-/

namespace SapGuiSpec

/-! ## Class constants (src/sap_gui.py lines 138-140) -/

def DEFAULT_TIMEOUT : Nat := 60

def DEFAULT_RETRY_ATTEMPTS : Nat := 3

def RETRY_DELAY : Nat := 1

/-! ## String helpers mirroring the Python primitives used by the source -/

/-- Python truthiness of a string: non-empty. -/
def pyTruthy (s : String) : Bool := !(s == "")

/-- Python `str.isdigit` restricted to ASCII: non-empty and every char a digit. -/
def pyIsdigit (s : String) : Bool := !(s == "") && s.toList.all Char.isDigit

/-- Python `str.lower` (ASCII case mapping). -/
def pyLower (s : String) : String := String.mk (s.toList.map Char.toLower)

/-- Python `str.capitalize`: first character upper-cased, the rest lower-cased. -/
def pyCapitalize (s : String) : String :=
  match s.toList with
  | [] => ""
  | c :: rest => String.mk (Char.toUpper c :: rest.map Char.toLower)

/-- Does `hay` start with `needle`? (helper for substring containment). -/
def strStarts : List Char → List Char → Bool
  | [], _ => true
  | _ :: _, [] => false
  | a :: as, b :: bs => a == b && strStarts as bs

/-- Does the character list contain `needle` as a contiguous run? -/
def listHas (needle : List Char) : List Char → Bool
  | [] => needle.isEmpty
  | c :: rest => strStarts needle (c :: rest) || listHas needle rest

/-- Python `needle in hay` on strings: contiguous substring containment. -/
def strHas (hay needle : String) : Bool := listHas needle.toList hay.toList

/-! ## SapConfig and its validation (src/sap_gui.py lines 22-49) -/

structure SapConfig where
  platform : String
  client : String
  username : String
  password : String
  language : String
  path : String
deriving DecidableEq, Repr

/-- The body of `SapConfig.__post_init__`: the first validation error raised,
or `none` when the config passes.  Checks, in source order: all six fields
truthy; `client.isdigit()`; `len(language) == 2`. -/
def postInitError (c : SapConfig) : Option String :=
  if !(pyTruthy c.platform && pyTruthy c.client && pyTruthy c.username &&
       pyTruthy c.password && pyTruthy c.language && pyTruthy c.path) then
    some "All SAP configuration fields are required"
  else if !(pyIsdigit c.client) then
    some "SAP client must be numeric"
  else if !(c.language.length == 2) then
    some "Language code must be 2 characters"
  else
    none

/-- Dataclass construction: `__post_init__` runs eagerly, so building a
`SapConfig` either raises a `SapConfigError` or yields the record. -/
def mkSapConfig (c : SapConfig) : Except String SapConfig :=
  match postInitError c with
  | some e => Except.error e
  | none => Except.ok c

/-! ## Password generation (src/sap_gui.py lines 226-235) -/

/-- `generate_password`, abstracted over its three runtime inputs: the random
draw, the month name produced by `strftime('%B')`, and the year from
`strftime('%Y')`.  The source formats them as
`f"{number}{month.capitalize()}#{year}"`. -/
def generate_password (number : Nat) (monthName year : String) : String :=
  toString number ++ pyCapitalize monthName ++ "#" ++ year

/-- Python `random.randrange(start, stop)` can return exactly the integers
`n` with `start ≤ n < stop`. -/
def randrangePossible (start stop n : Nat) : Bool :=
  decide (start ≤ n) && decide (n < stop)

/-- The set of draws possible for the call `random.randrange(1, 999)` at
src/sap_gui.py line 234. -/
def drawPossible (n : Nat) : Bool := randrangePossible 1 999 n

/-! ## Element polling (src/sap_gui.py lines 405-441)

`wait_for_element` probes `findById` once per loop iteration; a raising
probe is followed by `time.sleep(1)`, and the loop guard compares elapsed
time with the timeout.  We model discrete time: `env i` tells whether the
probe at elapsed time `i` finds the element, the fuel is the timeout, and
the second component of the result counts the one-unit sleeps performed. -/

def waitGo (env : Nat → Bool) (i : Nat) : Nat → Bool × Nat
  | 0 => (false, 0)
  | fuel + 1 =>
    if env i then (true, 0)
    else
      let p := waitGo env (i + 1) fuel
      (p.1, p.2 + 1)

def wait_for_element (env : Nat → Bool) (timeout : Nat) : Bool × Nat :=
  waitGo env 0 timeout

/-! ## Session launch (src/sap_gui.py lines 55-95, `run_application`)

The filesystem/process world: whether a process with the executable's name
is already running, and, per logical drive, whether walking that drive finds
a file with the executable's name. -/

structure FsWorld where
  running : Bool
  driveFinds : List Bool
deriving DecidableEq, Repr

/-- The `for drive in drives` loop: launch from the first drive whose walk
finds the executable; `false` when no drive yields a match. -/
def searchDrives : List Bool → Bool
  | [] => false
  | d :: rest => if d then true else searchDrives rest

/-- `run_application`: already-running short-circuits the search; otherwise
the executable is searched for on every volume and launched if found.
Returns whether the application is (now) running. -/
def run_application (w : FsWorld) : Bool :=
  if w.running then true else searchDrives w.driveFinds

/-! ## Connection initialization (src/sap_gui.py lines 159-216)

One attempt of the `while retry_count < DEFAULT_RETRY_ATTEMPTS` body, after
a successful launch, proceeds through `GetObject("SAPGUI")`, the two
`isinstance(..., win32.CDispatch)` guards, `OpenConnection`, `Children(0)`
and `resizeWorkingPane`.  `StepOutcome` is what the external world does on
one attempt: everything succeeds, one of the two dispatch guards fails
(the source then does a bare `return None`), or some call raises. -/

inductive StepOutcome where
  | ok
  | rootNotDispatch
  | engineNotDispatch
  | exn (cause : String)
deriving DecidableEq, Repr

/-- The world for one loop iteration: the process/filesystem state seen by
`run_application`, and what the attach/open/resize sequence does if the
launch step succeeds. -/
structure AttemptEnv where
  fs : FsWorld
  attach : StepOutcome
deriving DecidableEq, Repr

/-- Outcome of one iteration of the retry loop body: when `run_application`
returns falsy the source raises `Exception("Failed to run SAPLogon.")`,
which the enclosing `except` treats like any other attempt failure. -/
def attemptOutcome (a : AttemptEnv) : StepOutcome :=
  if run_application a.fs then a.attach else StepOutcome.exn "Failed to run SAPLogon."

/-- What `_initialize_connection` can do: set `self.session` and return
(`attached`), take one of the bare `return None` paths, leaving the object
without a session (`silentNone`), or raise `SapGuiError` carrying the last
underlying cause (`launchError`). -/
inductive InitResult where
  | attached
  | silentNone
  | launchError (cause : String)
deriving DecidableEq, Repr

/-- Result of running the retry loop together with how many attempts were
performed and how many `time.sleep(RETRY_DELAY)` delays were taken. -/
structure InitTrace where
  result : InitResult
  attempts : Nat
  delays : Nat
deriving DecidableEq, Repr

/-- The retry loop.  `i` is the attempt index (for looking up the world),
the fuel is `DEFAULT_RETRY_ATTEMPTS - retry_count`.  On an exception the
source increments `retry_count`; if it reached the bound it raises
`SapGuiError`, otherwise it sleeps `RETRY_DELAY` and loops.  A fuel of `0`
is the loop guard failing, after which the function falls through and
returns `None` (unreachable from the real entry fuel of 3). -/
def initGo (env : Nat → AttemptEnv) (i : Nat) : Nat → InitTrace
  | 0 => ⟨InitResult.silentNone, 0, 0⟩
  | fuel + 1 =>
    match attemptOutcome (env i) with
    | StepOutcome.ok => ⟨InitResult.attached, 1, 0⟩
    | StepOutcome.rootNotDispatch => ⟨InitResult.silentNone, 1, 0⟩
    | StepOutcome.engineNotDispatch => ⟨InitResult.silentNone, 1, 0⟩
    | StepOutcome.exn c =>
      match fuel with
      | 0 => ⟨InitResult.launchError c, 1, 0⟩
      | f + 1 =>
        let t := initGo env (i + 1) (f + 1)
        ⟨t.result, t.attempts + 1, t.delays + 1⟩

/-- `_initialize_connection`, as a function of the per-attempt world. -/
def initialize_connection (env : Nat → AttemptEnv) : InitTrace :=
  initGo env 0 DEFAULT_RETRY_ATTEMPTS

/-! ## Login state machine (src/sap_gui.py lines 253-365)

The world seen by one `sapLogin` run.  Which window is active at each of
the two secondary-window checks, and what the relevant texts are, are total
reads of the world; the calls that can raise at each stage are recorded as
explicit outcomes. -/

/-- State at the password-change check (`handle_password_change`): either
the active window is the primary window `wnd[0]`, or the secondary window
`wnd[1]` is active and the prompt label `usr/lblRSYST-NCODE_TEXT` either is
missing (so `findById` raises) or holds the given text. -/
inductive PwcState where
  | absent
  | labelMissing
  | label (text : String)
deriving DecidableEq, Repr

/-- State at the multi-session check (`_handle_multiple_login`): either the
active window is `wnd[0]`, or `wnd[1]` is active with the given window
text; `actionsOk` records whether selecting the radio option and pressing
confirm raise no exception. -/
inductive MultiState where
  | absent
  | window (text : String) (actionsOk : Bool)
deriving DecidableEq, Repr

structure SessionWorld where
  /-- Writing the four credential fields and `sendVKey 0` raise no exception. -/
  credOk : Bool
  pwc : PwcState
  /-- Writing the two new-password fields and pressing confirm raise no exception. -/
  pwcSubmitOk : Bool
  /-- After the settle delay, `findById("wnd[0]/tbar[0]/btn[15]", False)` returns an element. -/
  pwcProbe : Bool
  multi : MultiState
  /-- At verification, `findById("wnd[0]/tbar[0]/btn[15]")` returns an element without raising. -/
  verifyProbe : Bool
deriving DecidableEq, Repr

/-- `handle_password_change`: `True` when no secondary window is active;
`False` when the prompt label is missing (the lookup raises, caught by the
blanket `except`) or its lower-cased text does not contain the phrase
`"nova senha"`; otherwise the new password is written and submitted and the
result is the raise-suppressed probe of the primary toolbar button. -/
def handle_password_change (w : SessionWorld) : Bool :=
  match w.pwc with
  | PwcState.absent => true
  | PwcState.labelMissing => false
  | PwcState.label t =>
    if strHas (pyLower t) "nova senha" then
      if w.pwcSubmitOk then w.pwcProbe else false
    else false

/-- `_handle_multiple_login`: when `wnd[1]` is active and its text contains
(case-sensitively) `"logon múltiplo"`, the option is selected and confirmed
— an exception there is caught and yields `False`; in every other case the
function returns `True`. -/
def handle_multiple_login (w : SessionWorld) : Bool :=
  match w.multi with
  | MultiState.absent => true
  | MultiState.window t actionsOk =>
    if strHas t "logon múltiplo" then actionsOk else true

/-- `_verify_login`: `bool(findById("wnd[0]/tbar[0]/btn[15]"))`, with any
exception caught and turned into `False`. -/
def verify_login (w : SessionWorld) : Bool := w.verifyProbe

/-- `sapLogin`.  First component: the returned boolean.  Second component:
whether the outer `except` branch ran (logging the error and calling
`close_connection` before returning `False`) — the helpers catch their own
exceptions, so only the credential-entry stage can reach that branch. -/
def sapLogin (w : SessionWorld) : Bool × Bool :=
  if w.credOk then
    if handle_password_change w then
      if handle_multiple_login w then (verify_login w, false)
      else (false, false)
    else (false, false)
  else (false, true)

/-! ## Connection release (src/sap_gui.py lines 367-377, `close_connection`)

The handle state mutated by `close_connection`: the `connection` and
`SapGuiAuto` attributes of the `SapGui` object.  A Python attribute is
three-valued here: never assigned (so reading it raises `AttributeError` —
reachable for `connection` through the silent non-dispatch init paths,
which return before line 205 assigns it), assigned `None` (falsy), or
assigned a live COM object (truthy). -/

inductive PyAttr where
  | unset
  | noneVal
  | handle (h : Nat)
deriving DecidableEq, Repr

structure ConnState where
  connection : PyAttr
  sapGuiAuto : PyAttr
deriving DecidableEq, Repr

/-- The `try` body of `close_connection`, statement by statement.  Reading
`self.connection` at `if self.connection:` raises `AttributeError` when the
attribute was never set, jumping to the `except` before anything was
mutated.  On a live connection, `CloseSession('ses[0]')` is an external
call that can raise (`closeRaises`); the raise happens before either handle
is cleared, so the state is returned as mutated so far.  Only after it
returns normally is `connection` set to `None`.  Then `if self.SapGuiAuto:`
likewise raises on a never-set root attribute (leaving it as it was) and
otherwise clears it when truthy. -/
def close_connection_body (closeRaises : Bool) (s : ConnState) :
    Except String Unit × ConnState :=
  match s.connection with
  | PyAttr.unset => (Except.error "AttributeError: connection", s)
  | PyAttr.noneVal =>
    match s.sapGuiAuto with
    | PyAttr.unset => (Except.error "AttributeError: SapGuiAuto", s)
    | PyAttr.noneVal => (Except.ok (), s)
    | PyAttr.handle _ => (Except.ok (), { s with sapGuiAuto := PyAttr.noneVal })
  | PyAttr.handle _ =>
    if closeRaises then (Except.error "CloseSession failed", s)
    else
      let s1 : ConnState := { s with connection := PyAttr.noneVal }
      match s1.sapGuiAuto with
      | PyAttr.unset => (Except.error "AttributeError: SapGuiAuto", s1)
      | PyAttr.noneVal => (Except.ok (), s1)
      | PyAttr.handle _ => (Except.ok (), { s1 with sapGuiAuto := PyAttr.noneVal })

/-- `close_connection`: the body runs under a blanket `try`/`except` that
logs and swallows any exception, so the caller always gets back the state
as mutated so far and never an exception. -/
def close_connection (closeRaises : Bool) (s : ConnState) : ConnState :=
  (close_connection_body closeRaises s).2

/-! ## The driver (src/main.py lines 30-59, `main`)

We model the part of `main` after a successful acquisition (`SapGui(...)`
returned), counting how often `sapLogout` and `close_connection` are
invoked on each control path.  `sapLogout` (lines 379-386) and
`close_connection` both wrap their bodies in blanket `try`/`except`, so
neither propagates an exception. -/

structure Counts where
  logoutCalls : Nat
  closeCalls : Nat
deriving DecidableEq, Repr

/-- Python `try body except handler finally fin` over an explicit
exception-and-state result: the body runs first; an error is passed to the
handler; the `finally` block runs on every path, and an exception escaping
it replaces the pending result. -/
def pyTryExceptFinally {α : Type} (body : Counts → Except String α × Counts)
    (handler : String → Counts → Except String α × Counts)
    (fin : Counts → Except String Unit × Counts) :
    Counts → Except String α × Counts := fun c =>
  let r1 := body c
  let r2 := match r1.1 with
    | Except.ok a => (Except.ok a, r1.2)
    | Except.error e => handler e r1.2
  let rf := fin r2.2
  match rf.1 with
  | Except.ok _ => (r2.1, rf.2)
  | Except.error e => (Except.error e, rf.2)

/-- One `sapLogout()` call: its body catches every exception, so the call
always returns; we record the invocation. -/
def sapLogout_call (c : Counts) : Counts :=
  { c with logoutCalls := c.logoutCalls + 1 }

/-- One `close_connection()` call as seen by the counters: it likewise
always returns (see `close_connection`). -/
def close_call (c : Counts) : Counts :=
  { c with closeCalls := c.closeCalls + 1 }

/-- The `try` body of `main` after acquisition: `sapLogin` (which calls
`close_connection` itself exactly when its outer `except` branch runs),
then `raise Exception("Failed to login to SAP")` on a falsy result;
`create_sales_order` catches its own exceptions and is outcome-irrelevant
here. -/
def mainBody (w : SessionWorld) (c : Counts) : Except String Unit × Counts :=
  let r := sapLogin w
  let c1 := if r.2 then close_call c else c
  if r.1 then (Except.ok (), c1)
  else (Except.error "Failed to login to SAP", c1)

/-- The `except` branch of `main`: `logging.error`, swallowing the error. -/
def mainHandler (_e : String) (c : Counts) : Except String Unit × Counts :=
  (Except.ok (), c)

/-- The `finally` branch of `main`: `sapLogout()` then `close_connection()`
inside an inner `try`/`except`; since neither callee propagates an
exception, both always run and the block returns normally. -/
def mainCleanup (c : Counts) : Except String Unit × Counts :=
  (Except.ok (), close_call (sapLogout_call c))

/-- `main` from the point where acquisition succeeded, over the login
world, starting from zero invocation counts. -/
def main_run (w : SessionWorld) : Except String Unit × Counts :=
  pyTryExceptFinally (mainBody w) mainHandler mainCleanup ⟨0, 0⟩

/-! ## Theorems -/

theorem waitGo_sleeps_le (env : Nat → Bool) :
    ∀ (fuel i : Nat), (waitGo env i fuel).2 ≤ fuel := by
  intro fuel
  induction fuel with
  | zero => intro i; simp [waitGo]
  | succ n ih =>
    intro i
    by_cases h : env i
    · simp [waitGo, h]
    · simp only [waitGo, h, if_false]
      exact Nat.succ_le_succ (ih (i + 1))

/-- C6: password generation is deterministic in the draw, month name and
year: for draw 42, month "December" and year "2025" the generated string is
exactly "42December#2025" — the draw, then the capitalized month name, then
the single separator, then the year. -/
theorem generate_password_concrete :
    generate_password 42 "December" "2025" = "42December#2025" := by
  rfl

/-- C7 counterexample: the claim says every integer in [1, 999] is a
possible draw, but `random.randrange(1, 999)` excludes its upper bound, so
999 is not a possible draw. -/
theorem drawPossible_999_false : drawPossible 999 = false := by
  rfl

/-- C7 (amended): the random draw used in password generation ranges over
the integers 1 to 998 inclusive — every integer in [1, 998], and no other
value, is a possible draw. -/
theorem drawPossible_range (n : Nat) :
    drawPossible n = true ↔ 1 ≤ n ∧ n ≤ 998 := by
  simp only [drawPossible, randrangePossible, Bool.and_eq_true, decide_eq_true_eq]
  omega

/-- C9: element polling with timeout 0 returns false immediately with no
probe sleep; for every timeout the number of one-unit sleeps is bounded by
the timeout (so the loop always returns a boolean within the bound), and
the default bound is 60 time units. -/
theorem wait_for_element_bounded (env : Nat → Bool) (t : Nat) :
    wait_for_element env 0 = (false, 0) ∧
    (wait_for_element env t).2 ≤ t ∧
    DEFAULT_TIMEOUT = 60 := by
  exact ⟨rfl, waitGo_sleeps_le env t 0, rfl⟩


theorem config_validation_characterization (c : SapConfig) :
    mkSapConfig c = Except.ok c ↔
      (c.platform ≠ "" ∧ c.client ≠ "" ∧ c.username ≠ "" ∧ c.password ≠ "" ∧
       c.language ≠ "" ∧ c.path ≠ "" ∧ c.client.toList.all Char.isDigit = true ∧
       c.language.length = 2) := by
  have hok : mkSapConfig c = Except.ok c ↔ postInitError c = none := by
    cases h : postInitError c <;> simp [mkSapConfig, h]
  rw [hok]
  simp only [postInitError]
  constructor
  · intro h
    split at h
    · simp_all
    · split at h
      · simp_all
      · split at h
        · simp_all
        · rename_i hA hB hC
          simp only [pyTruthy, pyIsdigit, Bool.not_eq_true, Bool.not_eq_false,
            Bool.and_eq_true, beq_iff_eq, bne_iff_ne] at hA hB hC
          simp_all [pyTruthy]
  · rintro ⟨h1, h2, h3, h4, h5, h6, hd, hl⟩
    have hd' : ∀ x ∈ c.client.toList, Char.isDigit x = true := List.all_eq_true.mp hd
    simp [pyTruthy, pyIsdigit, h1, h2, h3, h4, h5, h6, hd, hl]
    exact fun x hx => hd' x hx

/-- Witness for C5: a concrete config passing all three invariants is
accepted, and concrete violations of each invariant are rejected. -/
theorem config_validation_characterization_witness :
    mkSapConfig ⟨"PRD", "110", "user", "pass", "PT", "saplogon.exe"⟩ =
      Except.ok ⟨"PRD", "110", "user", "pass", "PT", "saplogon.exe"⟩ :=
  (config_validation_characterization _).mpr
    ⟨by decide, by decide, by decide, by decide, by decide, by decide, by decide, by decide⟩

/-- C1 counterexample: when the automation root returned by
`GetObject("SAPGUI")` is not a dispatch object, `_initialize_connection`
takes the bare `return None` path on the first attempt — it terminates with
neither an attached session nor a `LaunchError`, an outcome the claim rules
out. -/
theorem initialize_connection_silent_path :
    initialize_connection (fun _ => ⟨⟨true, []⟩, StepOutcome.rootNotDispatch⟩) =
      ⟨InitResult.silentNone, 1, 0⟩ ∧
    (initialize_connection (fun _ => ⟨⟨true, []⟩, StepOutcome.rootNotDispatch⟩)).result ≠
      InitResult.attached := by
  exact ⟨rfl, by decide⟩

/-- C1 (amended): for every world, `_initialize_connection` either attaches
a session, or returns silently with no session and no error (possible only
through the non-dispatch guard paths), or raises a `LaunchError` carrying
the cause of the third attempt after exactly 3 attempts with a
one-time-unit delay after each of the first two failures. -/
theorem initialize_connection_outcomes (env : Nat → AttemptEnv) :
    (initialize_connection env).result = InitResult.attached ∨
    (initialize_connection env).result = InitResult.silentNone ∨
    (∃ c0 c1 c2, attemptOutcome (env 0) = StepOutcome.exn c0 ∧
      attemptOutcome (env 1) = StepOutcome.exn c1 ∧
      attemptOutcome (env 2) = StepOutcome.exn c2 ∧
      initialize_connection env = ⟨InitResult.launchError c2, 3, 2⟩) := by
  rcases h0 : attemptOutcome (env 0) with _ | _ | _ | c0
  · exact Or.inl (by simp [initialize_connection, DEFAULT_RETRY_ATTEMPTS, initGo, h0])
  · exact Or.inr (Or.inl (by simp [initialize_connection, DEFAULT_RETRY_ATTEMPTS, initGo, h0]))
  · exact Or.inr (Or.inl (by simp [initialize_connection, DEFAULT_RETRY_ATTEMPTS, initGo, h0]))
  · rcases h1 : attemptOutcome (env 1) with _ | _ | _ | c1
    · exact Or.inl (by simp [initialize_connection, DEFAULT_RETRY_ATTEMPTS, initGo, h0, h1])
    · exact Or.inr (Or.inl (by
        simp [initialize_connection, DEFAULT_RETRY_ATTEMPTS, initGo, h0, h1]))
    · exact Or.inr (Or.inl (by
        simp [initialize_connection, DEFAULT_RETRY_ATTEMPTS, initGo, h0, h1]))
    · rcases h2 : attemptOutcome (env 2) with _ | _ | _ | c2
      · exact Or.inl (by
          simp [initialize_connection, DEFAULT_RETRY_ATTEMPTS, initGo, h0, h1, h2])
      · exact Or.inr (Or.inl (by
          simp [initialize_connection, DEFAULT_RETRY_ATTEMPTS, initGo, h0, h1, h2]))
      · exact Or.inr (Or.inl (by
          simp [initialize_connection, DEFAULT_RETRY_ATTEMPTS, initGo, h0, h1, h2]))
      · refine Or.inr (Or.inr ⟨c0, c1, c2, ?_, ?_, ?_, ?_⟩)
        · exact rfl
        · exact rfl
        · exact rfl
        · simp [initialize_connection, DEFAULT_RETRY_ATTEMPTS, initGo, h0, h1, h2]

/-- C3 counterexample: with the executable absent from every volume and no
matching process running, the launch step fails and that failure IS retried
— the loop performs 3 attempts and ends in the generic retry-exhaustion
`SapGuiError`, not a distinct unretried executable-not-found failure. -/
theorem executable_not_found_is_retried :
    initialize_connection (fun _ => ⟨⟨false, [false, false]⟩, StepOutcome.ok⟩) =
      ⟨InitResult.launchError "Failed to run SAPLogon.", 3, 2⟩ ∧
    (initialize_connection (fun _ => ⟨⟨false, [false, false]⟩, StepOutcome.ok⟩)).attempts ≠ 1 := by
  exact ⟨rfl, by decide⟩

/-- C3 (amended): when no volume yields the executable and it is not
already running, `run_application` returns false; `_initialize_connection`
turns that into an exception which is retried like any other attempt
failure, and after exactly 3 attempts it raises the generic `SapGuiError`
carrying the executable-not-found cause. -/
theorem executable_not_found_retry_exhaustion (env : Nat → AttemptEnv)
    (h : ∀ i, i < 3 → (env i).fs.running = false ∧ searchDrives (env i).fs.driveFinds = false) :
    run_application (env 0).fs = false ∧
    initialize_connection env =
      ⟨InitResult.launchError "Failed to run SAPLogon.", 3, 2⟩ := by
  have ho : ∀ i, i < 3 → attemptOutcome (env i) = StepOutcome.exn "Failed to run SAPLogon." := by
    intro i hi
    have hh := h i hi
    simp [attemptOutcome, run_application, hh.1, hh.2]
  have h0 := ho 0 (by norm_num)
  have h1 := ho 1 (by norm_num)
  have h2 := ho 2 (by norm_num)
  constructor
  · have hh := h 0 (by norm_num)
    simp [run_application, hh.1, hh.2]
  · simp [initialize_connection, DEFAULT_RETRY_ATTEMPTS, initGo, h0, h1, h2]

/-- Witness for C3 (amended): a concrete world in which the process is not
running and the single volume does not hold the executable. -/
theorem executable_not_found_retry_exhaustion_witness :
    run_application (⟨false, [false]⟩ : FsWorld) = false ∧
    initialize_connection (fun _ => ⟨⟨false, [false]⟩, StepOutcome.ok⟩) =
      ⟨InitResult.launchError "Failed to run SAPLogon.", 3, 2⟩ :=
  executable_not_found_retry_exhaustion (fun _ => ⟨⟨false, [false]⟩, StepOutcome.ok⟩)
    (fun _ _ => ⟨rfl, rfl⟩)

/-- C2: in a run where credential entry raises no exception and the active
window is the primary window at both the password-change check and the
multi-session check, `sapLogin` returns true exactly when the primary
toolbar's logged-in indicator is found at verification; its absence (the
lookup raising) gives false. -/
theorem sapLogin_no_secondary_success_iff_verify (w : SessionWorld)
    (hc : w.credOk = true) (hp : w.pwc = PwcState.absent)
    (hm : w.multi = MultiState.absent) :
    (sapLogin w).1 = true ↔ w.verifyProbe = true := by
  simp [sapLogin, handle_password_change, handle_multiple_login, verify_login, hc, hp, hm]

/-- Witness for C2: a concrete run with no secondary windows and the
verification element present succeeds. -/
theorem sapLogin_no_secondary_success_iff_verify_witness :
    (sapLogin ⟨true, PwcState.absent, true, true, MultiState.absent, true⟩).1 = true :=
  (sapLogin_no_secondary_success_iff_verify
    ⟨true, PwcState.absent, true, true, MultiState.absent, true⟩ rfl rfl rfl).mpr rfl

/-- C4: when a secondary window is active at the password-change check and
its prompt label's text does not contain the new-password phrase,
`handle_password_change` returns false and `sapLogin` returns false without
consulting the multi-session or verification stages — the dialog is never
dismissed and login never proceeds. -/
theorem unrecognized_secondary_window_fails_login (w : SessionWorld) (t : String)
    (hc : w.credOk = true) (hp : w.pwc = PwcState.label t)
    (hm : strHas (pyLower t) "nova senha" = false) :
    handle_password_change w = false ∧ sapLogin w = (false, false) := by
  have h1 : handle_password_change w = false := by
    simp [handle_password_change, hp, hm]
  exact ⟨h1, by simp [sapLogin, hc, h1]⟩

/-- Witness for C4: a concrete secondary window whose label text is not the
new-password prompt makes the login fail. -/
theorem unrecognized_secondary_window_fails_login_witness :
    handle_password_change
      ⟨true, PwcState.label "senha expirada", true, true, MultiState.absent, true⟩ = false ∧
    sapLogin ⟨true, PwcState.label "senha expirada", true, true, MultiState.absent, true⟩ =
      (false, false) :=
  unrecognized_secondary_window_fails_login
    ⟨true, PwcState.label "senha expirada", true, true, MultiState.absent, true⟩
    "senha expirada" rfl rfl (by decide)

/-- C8: for every login world the driver's teardown sequence — `sapLogout()`
followed by `close_connection()` in the `finally` block — runs exactly once
per acquisition (one logout call on every path), `main` never lets the
login failure escape, and `close_connection` is additionally invoked inside
`sapLogin` exactly when login aborted with an exception. -/
theorem teardown_exactly_once (w : SessionWorld) :
    (main_run w).2.logoutCalls = 1 ∧
    (main_run w).2.closeCalls = (if (sapLogin w).2 then 2 else 1) ∧
    (main_run w).1 = Except.ok () := by
  rcases hl : sapLogin w with ⟨b, ci⟩
  cases b <;> cases ci <;>
    simp [main_run, pyTryExceptFinally, mainBody, mainHandler, mainCleanup,
      sapLogout_call, close_call, hl]

/-- C10 counterexample: when the external `CloseSession` call raises on a
live connection, the `except` branch runs before either handle was cleared,
so after that one call the connection handle is still set — the claim's
"after one call, the handles are None" fails. -/
theorem close_connection_raise_keeps_handles :
    close_connection true ⟨PyAttr.handle 0, PyAttr.handle 0⟩ =
      ⟨PyAttr.handle 0, PyAttr.handle 0⟩ ∧
    (close_connection true ⟨PyAttr.handle 0, PyAttr.handle 0⟩).connection ≠
      PyAttr.noneVal := by
  exact ⟨rfl, by decide⟩

/-- C10 (amended): `close_connection` never propagates an exception (it is
a total state transformer, every body error being swallowed); when the
connection handle is live, the root attribute is set, and the external
release does not raise, one call leaves both handles `None`, and on that
released state any further call is a no-op whose body performs no external
release and raises nothing; when the external release raises, or when the
connection attribute was never set (the silent-init path — reading it
raises before the root handle would have been cleared), the call leaves
the state exactly as it was. -/
theorem close_connection_release_semantics (r : Bool) (s : ConnState) :
    (∀ h, s.connection = PyAttr.handle h → s.sapGuiAuto ≠ PyAttr.unset →
      close_connection false s = ⟨PyAttr.noneVal, PyAttr.noneVal⟩) ∧
    close_connection r ⟨PyAttr.noneVal, PyAttr.noneVal⟩ =
      ⟨PyAttr.noneVal, PyAttr.noneVal⟩ ∧
    (close_connection_body r ⟨PyAttr.noneVal, PyAttr.noneVal⟩).1 = Except.ok () ∧
    (∀ h, s.connection = PyAttr.handle h → close_connection true s = s) ∧
    (s.connection = PyAttr.unset → close_connection r s = s) := by
  refine ⟨?_, ?_, ?_, ?_, ?_⟩
  · intro h hcon hga
    cases hg : s.sapGuiAuto with
    | unset => exact absurd hg hga
    | noneVal => simp [close_connection, close_connection_body, hcon, hg]
    | handle _ => simp [close_connection, close_connection_body, hcon, hg]
  · cases r <;> rfl
  · cases r <;> rfl
  · intro h hcon
    simp [close_connection, close_connection_body, hcon]
  · intro hcon
    simp [close_connection, close_connection_body, hcon]

/-- Witness for C10 (amended): releasing a live state clears both handles,
a repeated call on the released state is a no-op, a raising release leaves
the live state unchanged, and a call on the silent-init state (connection
attribute never set, root handle still set) leaves it unchanged. -/
theorem close_connection_release_semantics_witness :
    close_connection false ⟨PyAttr.handle 5, PyAttr.handle 7⟩ =
      ⟨PyAttr.noneVal, PyAttr.noneVal⟩ ∧
    close_connection true ⟨PyAttr.noneVal, PyAttr.noneVal⟩ =
      ⟨PyAttr.noneVal, PyAttr.noneVal⟩ ∧
    close_connection true ⟨PyAttr.handle 5, PyAttr.handle 7⟩ =
      ⟨PyAttr.handle 5, PyAttr.handle 7⟩ ∧
    close_connection false ⟨PyAttr.unset, PyAttr.handle 7⟩ =
      ⟨PyAttr.unset, PyAttr.handle 7⟩ := by
  obtain ⟨a, b, _, d, _⟩ :=
    close_connection_release_semantics true ⟨PyAttr.handle 5, PyAttr.handle 7⟩
  obtain ⟨_, _, _, _, e⟩ :=
    close_connection_release_semantics false ⟨PyAttr.unset, PyAttr.handle 7⟩
  exact ⟨a 5 rfl (by decide), b, d 5 rfl, e rfl⟩

end SapGuiSpec
